import Mathlib

/-!
Verification of the Luster-AI job-lifecycle and credit-transaction core.

This file gives a shallow embedding, in Lean, of the parts of the source that
the claims under examination talk about:

* `services/api/credit_service.py` — get_or_create_credit, refund_credits,
  refund_job;
* `services/api/main.py` — create_job (POST /jobs), get_job (GET /jobs/id),
  refund_job_credits (POST /jobs/id/refund), confirm_upload
  (POST /uploads/confirm), mobile_confirm_upload
  (POST /api/mobile/uploads/confirm), serve_output (GET /outputs/filename),
  get_credits (GET /credits), and the credit reservation inside
  create_job and mobile_enhance;
* `services/worker/worker.py` — the poll/claim/process loop, the failure
  finalization path, the max-retries path, and cleanup_stuck_jobs;
* `services/api/revenue_cat.py` — the webhook credit handlers.

Databases are modelled as in-memory lists of rows; a SQLAlchemy session's
flush/commit sequence on a single request is modelled as a pure state
transformation.  Machine integers of Python are unbounded, so `Int` models
Python `int` and `Nat` models the non-negative counters.  Wall-clock times
are `Nat` minutes.  Fallible endpoints return an explicit response sum type.
-/

/-- Job status enum from `database.py`: queued, processing, succeeded, failed. -/
inductive JobStatus : Type
  | queued
  | processing
  | succeeded
  | failed
deriving DecidableEq, Repr

/-- String value of a status, as Python's `JobStatus.<x>.value`. -/
def JobStatus.value : JobStatus → String
  | .queued => "queued"
  | .processing => "processing"
  | .succeeded => "succeeded"
  | .failed => "failed"

/-- A row of the `credits` table: one per user, integer balance. -/
structure Credit : Type where
  user_id : String
  balance : Int
deriving DecidableEq, Repr

/-- A row of the `jobs` table (columns used by the core; lease columns from
the alembic migration).  Timestamps are minutes as `Nat`. -/
structure Job : Type where
  id : String
  asset_id : String
  user_id : String
  prompt : String
  status : JobStatus
  output_path : Option String
  error_message : Option String
  credits_used : Int
  started_at : Option Nat
  completed_at : Option Nat
  lease_expires_at : Option Nat
  retry_count : Nat
  max_retries : Nat
deriving DecidableEq, Repr

/-- A row of the `job_events` table.  `details` models the JSON text as a
key/value list (values rendered to strings). -/
structure JobEvent : Type where
  job_id : String
  event_type : String
  details : List (String × String)
deriving DecidableEq, Repr

/-- A row of the `assets` table. -/
structure Asset : Type where
  id : String
  shoot_id : String
  user_id : String
  original_filename : String
  file_path : String
  file_size : Int
  mime_type : String
deriving DecidableEq, Repr

/-- A row of the `shoots` table. -/
structure Shoot : Type where
  id : String
  user_id : String
  name : String
deriving DecidableEq, Repr

/-- The relational state the API endpoints read and write. -/
structure DB : Type where
  shoots : List Shoot
  assets : List Asset
  jobs : List Job
  events : List JobEvent
  credits : List Credit
deriving DecidableEq, Repr

/-- `db.query(Credit).filter(Credit.user_id == uid).first()`. -/
def findCreditList (l : List Credit) (uid : String) : Option Credit :=
  l.find? (fun c => c.user_id == uid)

/-- Balance read with the 0 default the endpoints use for a missing row. -/
def balance_of (l : List Credit) (uid : String) : Int :=
  match findCreditList l uid with
  | some c => c.balance
  | none => 0

/-- In-place mutation `credit.balance += amt` of the (first) row of `uid`,
as the ORM session applies it. -/
def updateCreditList (l : List Credit) (uid : String) (amt : Int) : List Credit :=
  match l with
  | [] => []
  | c :: cs =>
    if c.user_id == uid then { c with balance := c.balance + amt } :: cs
    else c :: updateCreditList cs uid amt

/-- `db.query(Credit).filter(...).first()` on a `DB`. -/
def DB.findCredit (db : DB) (uid : String) : Option Credit :=
  findCreditList db.credits uid

/-- `db.query(JobEvent).filter(JobEvent.job_id == jid, JobEvent.event_type == ty).first()`
turned into the existence bit the callers branch on. -/
def DB.hasEvent (db : DB) (jid ty : String) : Bool :=
  db.events.any (fun e => e.job_id == jid && e.event_type == ty)

/-- `db.add(event)` for a job event. -/
def DB.addEvent (db : DB) (e : JobEvent) : DB :=
  { db with events := db.events ++ [e] }

/-- Mutation of the job row with id `jid`. -/
def DB.updateJob (db : DB) (jid : String) (f : Job → Job) : DB :=
  { db with jobs := db.jobs.map (fun j => if j.id == jid then f j else j) }

/-! ### credit_service.py -/

/-- `get_or_create_credit`: return the user's credit row, inserting a
balance-0 row when none exists. -/
def get_or_create_credit (db : DB) (uid : String) : DB :=
  match db.findCredit uid with
  | some _ => db
  | none => { db with credits := db.credits ++ [⟨uid, 0⟩] }

/-- `refund_credits`: unconditionally add `amount` to the user's balance
(creating the row if missing) and, when `jid` is given, append a
`credits_refunded` audit event. -/
def refund_credits (db : DB) (uid : String) (amount : Int) (jid : Option String) : DB :=
  let db1 := get_or_create_credit db uid
  let db2 := { db1 with credits := updateCreditList db1.credits uid amount }
  match jid with
  | some j =>
    db2.addEvent ⟨j, "credits_refunded",
      [("credits_refunded", toString amount),
       ("new_balance", toString (balance_of db2.credits uid)),
       ("reason", "job_failed")]⟩
  | none => db2

/-- Result pair `(success, message)` of `credit_service.refund_job`. -/
structure RefundOutcome : Type where
  ok : Bool
  message : String
deriving DecidableEq, Repr

/-- `credit_service.refund_job`: refund a failed job unless a
`credits_refunded` event already exists or there is nothing to refund.
The guard order matches the source: status, then existing event, then
`credits_used <= 0`. -/
def refund_job (db : DB) (job : Job) : RefundOutcome × DB :=
  if job.status ≠ JobStatus.failed then
    (⟨false, "Job is not in failed state (current: " ++ job.status.value ++ ")"⟩, db)
  else if db.hasEvent job.id "credits_refunded" then
    (⟨false, "Credits already refunded for this job"⟩, db)
  else if job.credits_used ≤ 0 then
    (⟨false, "No credits to refund"⟩, db)
  else
    let db1 := refund_credits db job.user_id job.credits_used (some job.id)
    (⟨true, "Refunded " ++ toString job.credits_used ++ " credits (new balance: "
        ++ toString (balance_of db1.credits job.user_id) ++ ")"⟩, db1)

/-! ### main.py endpoints -/

/-- Response of `POST /jobs` (`create_job` in main.py). -/
inductive CreateJobResp : Type
  | notFound
  | paymentRequired
  | ok (jobId : String) (status : String) (credits_used : Int)
deriving DecidableEq, Repr

/-- `create_job` (main.py, POST /jobs): load the asset scoped to the caller,
check the credit row (404 / 402 paths), price the tier with
`credits_used = 1 if tier == "free" else 2` — note the source performs no
membership validation of `tier` — deduct, insert the queued job (DB column
defaults: retry_count 0, max_retries 3) and append the `created` event.
The two balance checks (`balance < 1`, then `balance < credits_used`) are
both kept.  `newJobId` stands for the generated row id. -/
def create_job (db : DB) (uid aid prompt tier newJobId : String) :
    CreateJobResp × DB :=
  match db.assets.find? (fun a => a.id == aid && a.user_id == uid) with
  | none => (.notFound, db)
  | some _ =>
    match db.findCredit uid with
    | none => (.paymentRequired, db)
    | some credit =>
      if credit.balance < 1 then (.paymentRequired, db)
      else
        let credits_used : Int := if tier == "free" then 1 else 2
        if credit.balance < credits_used then (.paymentRequired, db)
        else
          let db1 := { db with credits := updateCreditList db.credits uid (-credits_used) }
          let job : Job :=
            { id := newJobId, asset_id := aid, user_id := uid, prompt := prompt,
              status := JobStatus.queued, output_path := none, error_message := none,
              credits_used := credits_used, started_at := none, completed_at := none,
              lease_expires_at := none, retry_count := 0, max_retries := 3 }
          let db2 := { db1 with jobs := db1.jobs ++ [job] }
          let db3 := db2.addEvent ⟨newJobId, "created",
            [("prompt", prompt), ("tier", tier), ("credits_used", toString credits_used)]⟩
          (.ok newJobId "queued" credits_used, db3)

/-- Response of `GET /jobs/{job_id}`. -/
inductive GetJobResp : Type
  | notFound
  | ok (job : Job)
deriving DecidableEq, Repr

/-- `get_job` (main.py): the query filters by job id AND the calling user's
id; a miss is a 404. -/
def get_job (db : DB) (jid uid : String) : GetJobResp :=
  match db.jobs.find? (fun j => j.id == jid && j.user_id == uid) with
  | none => .notFound
  | some j => .ok j

/-- Response of `GET /outputs/{filename}`. -/
inductive ServeOutputResp : Type
  | notFound
  | ok (output_path : String)
deriving DecidableEq, Repr

/-- `serve_output` (main.py): the endpoint has no authentication dependency
and no user in scope; it derives the job id from the filename and queries by
job id alone, serving the output of whatever job matches. -/
def serve_output (db : DB) (jid : String) : ServeOutputResp :=
  match db.jobs.find? (fun j => j.id == jid) with
  | none => .notFound
  | some j =>
    match j.output_path with
    | none => .notFound
    | some p => .ok p

/-- `get_credits` (main.py, GET /credits): a bare read returning the balance,
0 when the user has no credit row; the handler performs no insert or update. -/
def get_credits (db : DB) (uid : String) : Int × DB :=
  (match db.findCredit uid with
   | some c => c.balance
   | none => 0, db)

/-- Response of `POST /jobs/{job_id}/refund`. -/
inductive RefundResp : Type
  | notFound
  | badRequest (msg : String)
  | ok (creditsRefunded : Int) (newBalance : Int)
deriving DecidableEq, Repr

/-- `refund_job_credits` (main.py): look the job up scoped to the caller,
delegate to `credit_service.refund_job`, turn a failure into a 400 with the
service's message, and report the fresh balance on success. -/
def refund_job_credits (db : DB) (jid uid : String) : RefundResp × DB :=
  match db.jobs.find? (fun j => j.id == jid && j.user_id == uid) with
  | none => (.notFound, db)
  | some job =>
    let r := refund_job db job
    if r.1.ok then
      (.ok job.credits_used (balance_of r.2.credits uid), r.2)
    else
      (.badRequest r.1.message, r.2)

/-- Request body of the upload-confirm endpoints. -/
structure ConfirmReq : Type where
  asset_id : String
  shoot_id : String
  object_key : String
  filename : String
  file_size : Int
  content_type : String
deriving DecidableEq, Repr

/-- Response of `POST /uploads/confirm`. -/
inductive ConfirmResp : Type
  | serviceUnavailable
  | shootNotFound
  | verifyFailed (msg : String)
  | ok (assetId : String)
deriving DecidableEq, Repr

/-- `confirm_upload` (main.py): after the ownership-scoped shoot lookup, the
store-existence check runs inside `try: ... except Exception:`; the
`HTTPException(400)` raised when the object is absent is itself an
`Exception`, so it is caught and re-raised as the 500
"Failed to verify upload" error.  No asset row is created on that path.
`store_has_object` is the value `r2_client.check_file_exists` returns. -/
def confirm_upload (r2_enabled store_has_object : Bool) (req : ConfirmReq)
    (uid : String) (db : DB) : ConfirmResp × DB :=
  if !r2_enabled then (.serviceUnavailable, db)
  else
    match db.shoots.find? (fun s => s.id == req.shoot_id && s.user_id == uid) with
    | none => (.shootNotFound, db)
    | some _ =>
      if !store_has_object then
        (.verifyFailed "Failed to verify upload", db)
      else
        let asset : Asset :=
          { id := req.asset_id, shoot_id := req.shoot_id, user_id := uid,
            original_filename := req.filename, file_path := req.object_key,
            file_size := req.file_size, mime_type := req.content_type }
        (.ok req.asset_id, { db with assets := db.assets ++ [asset] })

/-- Response of `POST /api/mobile/uploads/confirm`. -/
inductive MobileConfirmResp : Type
  | shootNotFound
  | ok (assetId : String)
deriving DecidableEq, Repr

/-- `mobile_confirm_upload` (main.py): the existence check runs inside
`try: ... except Exception as e: logger.warning(...)` with no re-raise, so
the `HTTPException(400)` raised when the store reports the object absent is
swallowed as a warning and execution falls through to create the asset row.
Consequently neither `r2_enabled` nor `store_has_object` affects the
result. -/
def mobile_confirm_upload (r2_enabled store_has_object : Bool) (req : ConfirmReq)
    (uid : String) (db : DB) : MobileConfirmResp × DB :=
  match db.shoots.find? (fun s => s.id == req.shoot_id && s.user_id == uid) with
  | none => (.shootNotFound, db)
  | some _ =>
    let _ := r2_enabled && store_has_object
    let asset : Asset :=
      { id := req.asset_id, shoot_id := req.shoot_id, user_id := uid,
        original_filename := req.filename, file_path := req.object_key,
        file_size := req.file_size, mime_type := req.content_type }
    (.ok req.asset_id, { db with assets := db.assets ++ [asset] })

/-! ### worker.py — failure finalization against the shared DB (C1) -/

/-- Lease length `LEASE_DURATION_MINUTES` from worker.py. -/
def lease_duration_minutes : Nat := 15

/-- Worker exception handler of `process_job` (the `except` block): mark the
job failed, clear the lease, refund the reserved credits unless an event of
type `credits_refunded` exists for the job and provided a credit row exists,
then append a `failed` event whose DETAILS carry the refund amount under the
key "credits_refunded" — the event's type is "failed", not
"credits_refunded". -/
def worker_fail_job (db : DB) (jid errMsg : String) (now : Nat) : DB :=
  match db.jobs.find? (fun j => j.id == jid) with
  | none => db
  | some job =>
    let db1 := db.updateJob jid (fun j =>
      { j with status := JobStatus.failed, error_message := some errMsg,
               completed_at := some now, lease_expires_at := none })
    let db2 :=
      if db1.hasEvent jid "credits_refunded" then db1
      else
        match db1.findCredit job.user_id with
        | some _ =>
          { db1 with credits := updateCreditList db1.credits job.user_id job.credits_used }
        | none => db1
    db2.addEvent ⟨jid, "failed",
      [("error_message", errMsg),
       ("completed_at", toString now),
       ("credits_refunded", toString job.credits_used)]⟩

/-! ### worker.py — claim / reclaim / sweep state machine (C4, C5)

The poll loop coordinates through one job row at a time; the model keeps the
state a single worker-visible job together with its user's credit row, its
event list, and a ghost counter `attempts` that counts how many times the
image-processing path (the code from the `started` event to the provider
call) is entered. -/

/-- Worker-side view: the job row, the owning user's credit row (if any),
its events, and the ghost attempt counter. -/
structure WState : Type where
  job : Job
  credit : Option Credit
  events : List JobEvent
  attempts : Nat
deriving DecidableEq, Repr

/-- Outcome of one pass through the provider call: the processor returns
success, returns an error (or raises), or the worker crashes before
finalizing, leaving the row as the claim wrote it. -/
inductive Outcome : Type
  | success
  | failure (msg : String)
  | crash
deriving DecidableEq, Repr

/-- Operations drawn from the worker main loop: a poll-and-process pass at
time `now` with a given provider outcome, or a `cleanup_stuck_jobs` sweep at
time `now`. -/
inductive WOp : Type
  | claim (now : Nat) (outcome : Outcome)
  | sweep (now : Nat)
deriving DecidableEq, Repr

/-- `Job.lease_expires_at != None and Job.lease_expires_at < now`. -/
def lease_expired (j : Job) (now : Nat) : Bool :=
  match j.lease_expires_at with
  | some t => decide (t < now)
  | none => false

/-- The `poll_jobs` filter: queued, or processing with an expired lease and
retries left. -/
def claim_eligible (j : Job) (now : Nat) : Bool :=
  j.status == JobStatus.queued ||
  (j.status == JobStatus.processing && lease_expired j now &&
    decide (j.retry_count < j.max_retries))

/-- The `cleanup_stuck_jobs` filter: processing with an expired lease and
`retry_count >= max_retries`. -/
def sweep_eligible (j : Job) (now : Nat) : Bool :=
  j.status == JobStatus.processing && lease_expired j now &&
  decide (j.max_retries ≤ j.retry_count)

/-- The body of `process_job` after the retry bookkeeping: write
`status = processing`, `started_at = now` (unconditionally, also on a
reclaim), `lease_expires_at = now + LEASE_DURATION_MINUTES`, append the
`started` event (flagged `is_retry` on reclaims), then run the provider and
finalize.  On failure the refund is guarded by the `credits_refunded`-event
check and by the existence of the credit row, exactly as in the source. -/
def run_attempt (s : WState) (now : Nat) (outcome : Outcome) (is_retry : Bool) : WState :=
  let j1 := { s.job with
    status := JobStatus.processing
    started_at := some now
    lease_expires_at := some (now + lease_duration_minutes) }
  let startedDetails :=
    [("started_at", toString now), ("retry_count", toString j1.retry_count)] ++
    (if is_retry then [("is_retry", "true")] else [])
  let s1 : WState :=
    { s with job := j1, attempts := s.attempts + 1,
             events := s.events ++ [⟨j1.id, "started", startedDetails⟩] }
  match outcome with
  | .crash => s1
  | .success =>
    let j2 := { j1 with
      status := JobStatus.succeeded
      output_path := some (j1.id ++ ".jpg")
      completed_at := some now
      lease_expires_at := none }
    { s1 with job := j2,
              events := s1.events ++ [⟨j1.id, "completed",
                [("output_path", j1.id ++ ".jpg"), ("credits_used", toString j2.credits_used)]⟩] }
  | .failure msg =>
    let j2 := { j1 with
      status := JobStatus.failed
      error_message := some msg
      completed_at := some now
      lease_expires_at := none }
    let refunded := s1.events.any
      (fun e => e.job_id == j1.id && e.event_type == "credits_refunded")
    let credit' :=
      if refunded then s1.credit
      else s1.credit.map (fun c => { c with balance := c.balance + j2.credits_used })
    { s1 with job := j2, credit := credit',
              events := s1.events ++ [⟨j1.id, "failed",
                [("error_message", msg), ("credits_refunded", toString j2.credits_used)]⟩] }

/-- `process_job` as called on a job `poll_jobs` returned: when the job is
being reclaimed (`status == processing`), increment `retry_count` first and,
if it now reaches `max_retries`, finalize as failed with a refund (guarded
only by the credit row existing) and the `max_retries_exceeded` event;
otherwise fall through to the processing attempt. -/
def process_job (s : WState) (now : Nat) (outcome : Outcome) : WState :=
  if s.job.status = JobStatus.processing then
    let j1 := { s.job with retry_count := s.job.retry_count + 1 }
    if j1.max_retries ≤ j1.retry_count then
      let j2 := { j1 with
        status := JobStatus.failed
        error_message := some "max retries exceeded"
        completed_at := some now
        lease_expires_at := none }
      let credit' := s.credit.map (fun c => { c with balance := c.balance + j2.credits_used })
      { s with job := j2, credit := credit',
               events := s.events ++ [⟨j2.id, "max_retries_exceeded",
                 [("retry_count", toString j2.retry_count),
                  ("max_retries", toString j2.max_retries),
                  ("credits_refunded", toString j2.credits_used)]⟩] }
    else run_attempt { s with job := j1 } now outcome true
  else run_attempt s now outcome false

/-- `cleanup_stuck_jobs` restricted to the modelled job: finalize an expired
lease that is out of retries as failed, refunding unless a
`credits_refunded` or `max_retries_exceeded` event exists, the credit row
exists, and `credits_used` is non-zero. -/
def cleanup_stuck_jobs (s : WState) (now : Nat) : WState :=
  if sweep_eligible s.job now then
    let j2 := { s.job with
      status := JobStatus.failed
      error_message := some "max retries exceeded, cleaned up by worker"
      completed_at := some now
      lease_expires_at := none }
    let refunded := s.events.any (fun e =>
      e.job_id == s.job.id &&
        (e.event_type == "credits_refunded" || e.event_type == "max_retries_exceeded"))
    let credit' :=
      if refunded then s.credit
      else if j2.credits_used == 0 then s.credit
      else s.credit.map (fun c => { c with balance := c.balance + j2.credits_used })
    { s with job := j2, credit := credit',
             events := s.events ++ [⟨j2.id, "cleanup_max_retries",
               [("retry_count", toString j2.retry_count),
                ("max_retries", toString j2.max_retries),
                ("credits_refunded", toString j2.credits_used)]⟩] }
  else s

/-- One iteration of the worker main loop on the modelled job: a poll either
finds the job eligible and processes it, or leaves the state alone; a sweep
runs `cleanup_stuck_jobs`. -/
def wstep (s : WState) (op : WOp) : WState :=
  match op with
  | .claim now outcome =>
    if claim_eligible s.job now then process_job s now outcome else s
  | .sweep now => cleanup_stuck_jobs s now

/-- A whole worker history: fold the operations over the initial state. -/
def wrun (s : WState) (ops : List WOp) : WState :=
  ops.foldl wstep s

/-! ### revenue_cat.py — webhook credit handlers (C2)

The webhook state is the users and credits the handlers touch.  Emails and
subscriber attributes do not influence credit arithmetic and are omitted
from the user row.  Note the handlers key on nothing: no event id is read
from the payload anywhere in the file. -/

/-- Webhook-side state: known user ids and the credit rows. -/
structure RCDB : Type where
  users : List String
  credits : List Credit
deriving DecidableEq, Repr

/-- `get_or_create_user` (revenue_cat.py). -/
def rc_get_or_create_user (db : RCDB) (uid : String) : RCDB :=
  if db.users.contains uid then db else { db with users := db.users ++ [uid] }

/-- `get_or_create_credit` (revenue_cat.py). -/
def rc_get_or_create_credit (db : RCDB) (uid : String) : RCDB :=
  match findCreditList db.credits uid with
  | some _ => db
  | none => { db with credits := db.credits ++ [⟨uid, 0⟩] }

/-- `get_credits_for_product`: the static product → credits table, defaulting
to 0 for unknown products. -/
def get_credits_for_product (pid : String) : Int :=
  if pid == "com.lusterai.trial" then 10
  else if pid == "com.lusterai.pro.monthly" then 45
  else if pid == "com.lusterai.pro.yearly" then 540
  else if pid == "com.lusterai.credits.small" then 5
  else if pid == "com.lusterai.credits.medium" then 15
  else if pid == "com.lusterai.credits.large" then 30
  else 0

/-- `handle_initial_purchase`: get-or-create the user and credit row, then
add the product's credits when positive.  No idempotency key is consulted. -/
def handle_initial_purchase (uid pid : String) (db : RCDB) : RCDB :=
  let db1 := rc_get_or_create_user db uid
  let db2 := rc_get_or_create_credit db1 uid
  let credits_to_add := get_credits_for_product pid
  if 0 < credits_to_add then
    { db2 with credits := updateCreditList db2.credits uid credits_to_add }
  else db2

/-- `handle_renewal`: like the purchase handlers but returns without effect
when the user row does not exist. -/
def handle_renewal (uid pid : String) (db : RCDB) : RCDB :=
  if !db.users.contains uid then db
  else
    let db2 := rc_get_or_create_credit db uid
    let credits_to_add := get_credits_for_product pid
    if 0 < credits_to_add then
      { db2 with credits := updateCreditList db2.credits uid credits_to_add }
    else db2

/-- `handle_non_renewing_purchase`: identical credit effect to
`handle_initial_purchase`. -/
def handle_non_renewing_purchase (uid pid : String) (db : RCDB) : RCDB :=
  let db1 := rc_get_or_create_user db uid
  let db2 := rc_get_or_create_credit db1 uid
  let credits_to_add := get_credits_for_product pid
  if 0 < credits_to_add then
    { db2 with credits := updateCreditList db2.credits uid credits_to_add }
  else db2

/-- The dispatch of `revenuecat_webhook` after signature verification and
JSON parsing: route on the event type string; CANCELLATION, EXPIRATION and
unknown types have no credit effect.  Delivering a signed event body is,
state-wise, exactly one evaluation of this function. -/
def revenuecat_webhook_event (ty uid pid : String) (db : RCDB) : RCDB :=
  if ty == "INITIAL_PURCHASE" then handle_initial_purchase uid pid db
  else if ty == "RENEWAL" then handle_renewal uid pid db
  else if ty == "CANCELLATION" then db
  else if ty == "EXPIRATION" then db
  else if ty == "NON_RENEWING_PURCHASE" then handle_non_renewing_purchase uid pid db
  else db

/-! ### Concurrent credit reservation (C9)

Two HTTP requests reserving credits for the same user run in two database
transactions.  A transaction is modelled as a small program over the shared
balance; an interleaving is a schedule saying which transaction moves next.

The reservation in `create_job` (POST /jobs) is a plain ORM read of the
credit row followed by a comparison and an in-memory decrement that is
flushed as an UPDATE: between the read and the write the row is not locked,
so the two micro-steps of one request may interleave with the other request.
The reservation in `mobile_enhance` issues the read with
`.with_for_update()`, holding a row lock from the read to the commit, so its
read-check-write runs atomically with respect to the other request. -/

/-- One reserving transaction: its cost, its progress (0 = before the read,
1 = read done, 2 = committed), the balance value it read, and its HTTP
outcome (`some true` = 200 reserved, `some false` = 402 insufficient). -/
structure Txn : Type where
  cost : Int
  phase : Nat
  local_bal : Int
  result : Option Bool
deriving DecidableEq, Repr

/-- The shared credit row balance plus the two in-flight requests. -/
structure RaceState : Type where
  bal : Int
  t1 : Txn
  t2 : Txn
deriving DecidableEq, Repr

/-- One micro-step of the unlocked `create_job` reservation: first the ORM
read of the balance, then the check-and-write against the READ value (the
`balance < 1` pre-check is implied by `local_bal < cost` since the cost is
1 or 2).  The write stores `local_bal - cost`, as the ORM flushes the value
computed in Python. -/
def unlocked_micro (bal : Int) (t : Txn) : Int × Txn :=
  match t.phase with
  | 0 => (bal, { t with phase := 1, local_bal := bal })
  | 1 =>
    if t.local_bal < t.cost then (bal, { t with phase := 2, result := some false })
    else (t.local_bal - t.cost, { t with phase := 2, result := some true })
  | _ => (bal, t)

/-- Scheduler step for the unlocked model: `true` advances request 1. -/
def unlocked_step (s : RaceState) (which : Bool) : RaceState :=
  if which then
    let r := unlocked_micro s.bal s.t1
    { s with bal := r.1, t1 := r.2 }
  else
    let r := unlocked_micro s.bal s.t2
    { s with bal := r.1, t2 := r.2 }

/-- Run a schedule of micro-steps of the unlocked model. -/
def unlocked_run (s : RaceState) (sched : List Bool) : RaceState :=
  sched.foldl unlocked_step s

/-- The `mobile_enhance` reservation under `SELECT ... FOR UPDATE`: the row
lock makes read-check-write one indivisible step against the committed
balance. -/
def locked_txn (bal : Int) (t : Txn) : Int × Txn :=
  match t.phase with
  | 0 =>
    if bal < t.cost then (bal, { t with phase := 2, result := some false })
    else (bal - t.cost, { t with phase := 2, result := some true })
  | _ => (bal, t)

/-- Scheduler step for the locked model. -/
def locked_step (s : RaceState) (which : Bool) : RaceState :=
  if which then
    let r := locked_txn s.bal s.t1
    { s with bal := r.1, t1 := r.2 }
  else
    let r := locked_txn s.bal s.t2
    { s with bal := r.1, t2 := r.2 }

/-- Run a schedule of the locked model. -/
def locked_run (s : RaceState) (sched : List Bool) : RaceState :=
  sched.foldl locked_step s

/-- Initial race state: balance `b`, both requests not yet started. -/
def race_init (b a1 a2 : Int) : RaceState :=
  ⟨b, ⟨a1, 0, 0, none⟩, ⟨a2, 0, 0, none⟩⟩

/-! ### Iterated refund calls (C7) -/

/-- Call `POST /jobs/{jid}/refund` `k` times in sequence, counting the 200
responses and the 400 "Credits already refunded for this job" responses. -/
def refund_calls (k : Nat) (db : DB) (jid uid : String) : Nat × Nat × DB :=
  match k with
  | 0 => (0, 0, db)
  | k' + 1 =>
    let r := refund_job_credits db jid uid
    let rest := refund_calls k' r.2 jid uid
    let succ1 : Nat := match r.1 with | .ok _ _ => 1 | _ => 0
    let already1 : Nat :=
      if r.1 = RefundResp.badRequest "Credits already refunded for this job" then 1 else 0
    (succ1 + rest.1, already1 + rest.2.1, rest.2.2)

/-! ### Invariants and concrete scenario states -/

/-- Inductive invariant of the worker state machine: the retry budget bounds
the retry counter, and the ghost attempt counter is bounded by both
`retry_count + 1` and the budget; a still-queued job has seen no attempt. -/
def WInv (mr : Nat) (s : WState) : Prop :=
  s.job.max_retries = mr ∧
  s.job.retry_count ≤ mr ∧
  s.attempts ≤ s.job.retry_count + 1 ∧
  s.attempts ≤ mr ∧
  (s.job.status = JobStatus.queued → s.attempts = 0 ∧ s.job.retry_count = 0)

/-- Inductive invariant of the locked (mobile_enhance) reservation model for
initial balance `b` and costs `a1`, `a2` with `a1 ≤ b`, `a2 ≤ b`,
`b < a1 + a2`: the first transaction to commit wins, the other is refused,
and the balance tracks the winner's deduction. -/
def locked_inv (b a1 a2 : Int) (s : RaceState) : Prop :=
  s.t1.cost = a1 ∧ s.t2.cost = a2 ∧
  (s.t1.result.isSome → s.t1.phase ≠ 0) ∧
  (s.t2.result.isSome → s.t2.phase ≠ 0) ∧
  ((s.t1.result = none ∧ s.t2.result = none ∧ s.bal = b) ∨
   (s.t1.result = some true ∧ s.t2.result = none ∧ s.bal = b - a1) ∨
   (s.t1.result = none ∧ s.t2.result = some true ∧ s.bal = b - a2) ∨
   (s.t1.result = some true ∧ s.t2.result = some false ∧ s.bal = b - a1) ∨
   (s.t1.result = some false ∧ s.t2.result = some true ∧ s.bal = b - a2))

/-- Scenario state for the worker-then-endpoint double refund: job J2 of
user U2 is mid-processing with 2 credits reserved; the user's balance after
the reservation is 1. -/
def c1_db0 : DB :=
  { shoots := [], assets := [],
    jobs := [{ id := "J2", asset_id := "A2", user_id := "U2", prompt := "p",
               status := JobStatus.processing, output_path := none,
               error_message := none, credits_used := 2, started_at := some 0,
               completed_at := none, lease_expires_at := some 15,
               retry_count := 0, max_retries := 3 }],
    events := [⟨"J2", "created", []⟩, ⟨"J2", "started", []⟩],
    credits := [⟨"U2", 1⟩] }

/-- State of the C1 scenario after the worker finalizes J2 as failed. -/
def c1_db1 : DB := worker_fail_job c1_db0 "J2" "provider error" 20

/-- Scenario state for tier validation: user U1 owns asset A1 and holds 5
credits. -/
def c3_db0 : DB :=
  { shoots := [],
    assets := [⟨"A1", "S1", "U1", "f.jpg", "U1/S1/A1/original", 100, "image/jpeg"⟩],
    jobs := [], events := [], credits := [⟨"U1", 5⟩] }

/-- Scenario state for the reclaim: a fresh queued job J3 with the default
retry budget. -/
def c5_s0 : WState :=
  { job := { id := "J3", asset_id := "A3", user_id := "U3", prompt := "p",
             status := JobStatus.queued, output_path := none,
             error_message := none, credits_used := 2, started_at := none,
             completed_at := none, lease_expires_at := none,
             retry_count := 0, max_retries := 3 },
    credit := some ⟨"U3", 0⟩, events := [], attempts := 0 }

/-- Upload-confirm request for the C6 scenario. -/
def c6_req : ConfirmReq :=
  ⟨"A6", "S6", "U6/S6/A6/original.jpg", "photo.jpg", 1000, "image/jpeg"⟩

/-- Scenario state for C6: user U6 owns shoot S6; no assets yet. -/
def c6_db0 : DB :=
  { shoots := [⟨"S6", "U6", "june shoot"⟩], assets := [], jobs := [],
    events := [], credits := [] }

/-- Scenario state for ownership scoping: a succeeded job J9 owned by alice
with a stored output key. -/
def c8_db0 : DB :=
  { shoots := [], assets := [],
    jobs := [{ id := "J9", asset_id := "A9", user_id := "alice", prompt := "p",
               status := JobStatus.succeeded,
               output_path := some "alice/S9/A9/outputs/J9.jpg",
               error_message := none, credits_used := 2, started_at := some 0,
               completed_at := some 5, lease_expires_at := none,
               retry_count := 0, max_retries := 3 }],
    events := [], credits := [] }

/-- Witness state for the retry-budget theorem: a fresh queued job with the
default budget of 3. -/
def c4w_s0 : WState :=
  { job := { id := "J4", asset_id := "A4", user_id := "U4", prompt := "p",
             status := JobStatus.queued, output_path := none,
             error_message := none, credits_used := 2, started_at := none,
             completed_at := none, lease_expires_at := none,
             retry_count := 0, max_retries := 3 },
    credit := some ⟨"U4", 0⟩, events := [], attempts := 0 }

/-- Witness worker history: initial claim and three reclaims after expiry,
then a sweep — the budget-exhausting run of the spec's scenario 4. -/
def c4w_ops : List WOp :=
  [WOp.claim 0 Outcome.crash, WOp.claim 100 Outcome.crash,
   WOp.claim 200 Outcome.crash, WOp.claim 300 Outcome.crash, WOp.sweep 400]

/-- Witness state at the exhaustion boundary: a processing job with an
expired lease whose next retry reaches the budget. -/
def c4w_s1 : WState :=
  { job := { id := "J4", asset_id := "A4", user_id := "U4", prompt := "p",
             status := JobStatus.processing, output_path := none,
             error_message := none, credits_used := 2, started_at := some 0,
             completed_at := none, lease_expires_at := some 10,
             retry_count := 2, max_retries := 3 },
    credit := some ⟨"U4", 5⟩, events := [], attempts := 0 }

/-- Witness job for the iterated-refund theorem: failed with 2 reserved
credits and no refund marker. -/
def c7w_job : Job :=
  { id := "J7", asset_id := "A7", user_id := "U7", prompt := "p",
    status := JobStatus.failed, output_path := none,
    error_message := some "provider error", credits_used := 2,
    started_at := some 0, completed_at := some 9, lease_expires_at := none,
    retry_count := 0, max_retries := 3 }

/-- Witness database for the iterated-refund theorem. -/
def c7w_db : DB :=
  { shoots := [], assets := [], jobs := [c7w_job], events := [],
    credits := [⟨"U7", 1⟩] }

/-! ## Helper lemmas -/

/-- Updating a user's balance rewrites exactly that user's row. -/
theorem findCreditList_updateCreditList (l : List Credit) (uid : String) (amt : Int) :
    findCreditList (updateCreditList l uid amt) uid
      = (findCreditList l uid).map (fun c => { c with balance := c.balance + amt }) := by
  induction l with
  | nil => rfl
  | cons c cs ih =>
    by_cases h : c.user_id == uid
    · simp [findCreditList, updateCreditList, h, List.find?]
    · simp [findCreditList, updateCreditList, h, List.find?]
      exact ih

/-- Balance arithmetic of an update when the row exists. -/
theorem balance_of_updateCreditList (l : List Credit) (uid : String) (amt : Int)
    (h : (findCreditList l uid).isSome) :
    balance_of (updateCreditList l uid amt) uid = balance_of l uid + amt := by
  obtain ⟨c, hc⟩ := Option.isSome_iff_exists.mp h
  unfold balance_of
  rw [findCreditList_updateCreditList, hc]
  rfl

/-- A freshly appended zero row is found when no earlier row matches. -/
theorem findCreditList_append_new (l : List Credit) (uid : String)
    (h : findCreditList l uid = none) :
    findCreditList (l ++ [⟨uid, 0⟩]) uid = some ⟨uid, 0⟩ := by
  unfold findCreditList at h ⊢
  rw [List.find?_append, h]
  simp

/-- `get_or_create_credit` leaves everything except the credit rows alone. -/
theorem get_or_create_credit_frame (db : DB) (uid : String) :
    (get_or_create_credit db uid).jobs = db.jobs ∧
    (get_or_create_credit db uid).events = db.events ∧
    (get_or_create_credit db uid).assets = db.assets ∧
    (get_or_create_credit db uid).shoots = db.shoots := by
  unfold get_or_create_credit
  cases db.findCredit uid <;> exact ⟨rfl, rfl, rfl, rfl⟩

/-- After `get_or_create_credit` the user's row exists. -/
theorem get_or_create_credit_isSome (db : DB) (uid : String) :
    (findCreditList (get_or_create_credit db uid).credits uid).isSome := by
  unfold get_or_create_credit DB.findCredit
  cases h : findCreditList db.credits uid with
  | some c => simp [h]
  | none => simp [findCreditList_append_new db.credits uid h]

/-- `get_or_create_credit` does not change the user's readable balance. -/
theorem balance_of_get_or_create_credit (db : DB) (uid : String) :
    balance_of (get_or_create_credit db uid).credits uid = balance_of db.credits uid := by
  unfold get_or_create_credit DB.findCredit
  cases h : findCreditList db.credits uid with
  | some c => rfl
  | none =>
    unfold balance_of
    rw [findCreditList_append_new db.credits uid h, h]

/-- `refund_credits` adds exactly `amt` to the user's balance. -/
theorem balance_of_refund_credits (db : DB) (uid : String) (amt : Int) (jid : Option String) :
    balance_of (refund_credits db uid amt jid).credits uid
      = balance_of db.credits uid + amt := by
  unfold refund_credits
  have hsome := get_or_create_credit_isSome db uid
  have hupd := balance_of_updateCreditList (get_or_create_credit db uid).credits uid amt hsome
  have hkeep := balance_of_get_or_create_credit db uid
  cases jid with
  | some j => simp only [DB.addEvent]; rw [hupd, hkeep]
  | none => rw [hupd, hkeep]

/-- `refund_credits` leaves the job rows alone. -/
theorem refund_credits_jobs (db : DB) (uid : String) (amt : Int) (jid : Option String) :
    (refund_credits db uid amt jid).jobs = db.jobs := by
  unfold refund_credits
  have hframe := (get_or_create_credit_frame db uid).1
  cases jid with
  | some j => simpa [DB.addEvent] using hframe
  | none => simpa using hframe

/-- After `refund_credits` with a job reference the refund-marker event of
that job exists. -/
theorem refund_credits_marks (db : DB) (uid : String) (amt : Int) (j : String) :
    (refund_credits db uid amt (some j)).hasEvent j "credits_refunded" = true := by
  unfold refund_credits DB.hasEvent DB.addEvent
  have hframe := (get_or_create_credit_frame db uid).2.1
  simp [List.any_append, hframe]

/-- Successful branch of `credit_service.refund_job`. -/
theorem refund_job_success (db : DB) (j : Job)
    (hst : j.status = JobStatus.failed)
    (hev : db.hasEvent j.id "credits_refunded" = false)
    (hcu : 0 < j.credits_used) :
    (refund_job db j).1.ok = true ∧
    (refund_job db j).2 = refund_credits db j.user_id j.credits_used (some j.id) := by
  unfold refund_job
  rw [hst]
  simp [hev, not_le.mpr hcu]

/-- Already-refunded branch of `credit_service.refund_job`. -/
theorem refund_job_already (db : DB) (j : Job)
    (hst : j.status = JobStatus.failed)
    (hev : db.hasEvent j.id "credits_refunded" = true) :
    refund_job db j = (⟨false, "Credits already refunded for this job"⟩, db) := by
  unfold refund_job
  rw [hst]
  simp [hev]

/-- Not-failed branch of `credit_service.refund_job`. -/
theorem refund_job_not_failed (db : DB) (j : Job)
    (hst : j.status ≠ JobStatus.failed) :
    refund_job db j
      = (⟨false, "Job is not in failed state (current: " ++ j.status.value ++ ")"⟩, db) := by
  unfold refund_job
  simp [hst]

/-- Nothing-to-refund branch of `credit_service.refund_job`. -/
theorem refund_job_no_credits (db : DB) (j : Job)
    (hst : j.status = JobStatus.failed)
    (hev : db.hasEvent j.id "credits_refunded" = false)
    (hcu : j.credits_used ≤ 0) :
    refund_job db j = (⟨false, "No credits to refund"⟩, db) := by
  unfold refund_job
  rw [hst]
  simp [hev, hcu]

/-- Finding the unique job row of a single-job database. -/
theorem find_job_singleton (db : DB) (j : Job) (hjobs : db.jobs = [j]) :
    db.jobs.find? (fun jb => jb.id == j.id && jb.user_id == j.user_id) = some j := by
  rw [hjobs]
  simp [List.find?]

/-- Repeated refund endpoint calls on an already-marked job reject every
time and leave the state untouched. -/
theorem refund_calls_already (k : Nat) (db : DB) (j : Job)
    (hjobs : db.jobs = [j]) (hst : j.status = JobStatus.failed)
    (hev : db.hasEvent j.id "credits_refunded" = true) :
    refund_calls k db j.id j.user_id = (0, k, db) := by
  induction k with
  | zero => rfl
  | succ k' ih =>
    have hrjc : refund_job_credits db j.id j.user_id
        = (RefundResp.badRequest "Credits already refunded for this job", db) := by
      unfold refund_job_credits
      rw [find_job_singleton db j hjobs]
      simp [refund_job_already db j hst hev]
    unfold refund_calls
    rw [hrjc]
    simp [ih, Nat.add_comm]

/-- Fields of one processing attempt: the retry counter, budget and
`started_at` are those the claim wrote; the attempt counter advanced; the
row never returns to queued. -/
theorem run_attempt_fields (s : WState) (now : Nat) (o : Outcome) (ir : Bool) :
    (run_attempt s now o ir).job.retry_count = s.job.retry_count ∧
    (run_attempt s now o ir).job.max_retries = s.job.max_retries ∧
    (run_attempt s now o ir).attempts = s.attempts + 1 ∧
    (run_attempt s now o ir).job.started_at = some now ∧
    (run_attempt s now o ir).job.status ≠ JobStatus.queued := by
  cases o <;> simp [run_attempt]

/-- A crash right after a claim leaves the row as the claim wrote it:
processing, with a fresh lease. -/
theorem run_attempt_crash (s : WState) (now : Nat) (ir : Bool) :
    (run_attempt s now Outcome.crash ir).job.status = JobStatus.processing ∧
    (run_attempt s now Outcome.crash ir).job.lease_expires_at
      = some (now + lease_duration_minutes) := by
  simp [run_attempt]

/-- One worker-loop step preserves the retry-budget invariant. -/
theorem winv_wstep (mr : Nat) (hmr : 1 ≤ mr) (s : WState) (op : WOp)
    (h : WInv mr s) : WInv mr (wstep s op) := by
  obtain ⟨h1, h2, h3, h4, h5⟩ := h
  cases op with
  | sweep now =>
    show WInv mr (cleanup_stuck_jobs s now)
    unfold cleanup_stuck_jobs
    by_cases hs : sweep_eligible s.job now
    · simp only [hs, if_true]
      exact ⟨h1, h2, h3, h4, fun hq => by simp at hq⟩
    · simp only [hs, Bool.false_eq_true, if_false]
      exact ⟨h1, h2, h3, h4, h5⟩
  | claim now o =>
    show WInv mr (if claim_eligible s.job now then process_job s now o else s)
    by_cases he : claim_eligible s.job now
    · simp only [he, if_true]
      unfold process_job
      by_cases hp : s.job.status = JobStatus.processing
      · have he' : s.job.retry_count < s.job.max_retries := by
          simp [claim_eligible, hp] at he
          exact he.2
        simp only [hp, if_true]
        by_cases hx : s.job.max_retries ≤ s.job.retry_count + 1
        · simp only [hx, if_true]
          refine ⟨h1, ?_, ?_, h4, fun hq => by simp at hq⟩
          · show s.job.retry_count + 1 ≤ mr
            omega
          · show s.attempts ≤ s.job.retry_count + 1 + 1
            omega
        · simp only [hx, if_false]
          unfold WInv
          cases o <;> simp [run_attempt] <;> omega
      · have hq' : s.job.status = JobStatus.queued := by
          simp [claim_eligible, hp] at he
          exact he
        obtain ⟨ha0, hrc0⟩ := h5 hq'
        simp only [hp, if_false]
        unfold WInv
        cases o <;> simp [run_attempt] <;> omega
    · simp only [he, Bool.false_eq_true, if_false]
      exact ⟨h1, h2, h3, h4, h5⟩

/-- The invariant holds along every worker history. -/
theorem winv_wrun (mr : Nat) (hmr : 1 ≤ mr) (s : WState) (ops : List WOp)
    (h : WInv mr s) : WInv mr (wrun s ops) := by
  induction ops generalizing s with
  | nil => exact h
  | cons op rest ih => exact ih (wstep s op) (winv_wstep mr hmr s op h)

/-- One scheduler step preserves the locked-reservation invariant. -/
theorem locked_inv_step (b a1 a2 : Int) (h1 : a1 ≤ b) (h2 : a2 ≤ b) (h3 : b < a1 + a2)
    (s : RaceState) (w : Bool) (h : locked_inv b a1 a2 s) :
    locked_inv b a1 a2 (locked_step s w) := by
  obtain ⟨hc1, hc2, hp1, hp2, hcases⟩ := h
  cases w with
  | true =>
    show locked_inv b a1 a2 (locked_step s true)
    unfold locked_step locked_txn
    simp only [if_true]
    cases hph : s.t1.phase with
    | succ n => exact ⟨hc1, hc2, hp1, hp2, hcases⟩
    | zero =>
      rcases hcases with ⟨r1, r2, hb⟩ | ⟨r1, r2, hb⟩ | ⟨r1, r2, hb⟩ | ⟨r1, r2, hb⟩ | ⟨r1, r2, hb⟩
      · have hno : ¬ (s.bal < s.t1.cost) := by rw [hb, hc1]; exact not_lt.mpr h1
        simp only [hno, if_false]
        refine ⟨hc1, hc2, ?_, hp2, ?_⟩
        · intro _
          show (2 : Nat) ≠ 0
          omega
        · right; left
          refine ⟨rfl, r2, ?_⟩
          show s.bal - s.t1.cost = b - a1
          rw [hb, hc1]
      · exact absurd hph (hp1 (by simp [r1]))
      · have hyes : s.bal < s.t1.cost := by rw [hb, hc1]; omega
        simp only [hyes, if_true]
        refine ⟨hc1, hc2, ?_, hp2, ?_⟩
        · intro _
          show (2 : Nat) ≠ 0
          omega
        · right; right; right; right
          exact ⟨rfl, r2, hb⟩
      · exact absurd hph (hp1 (by simp [r1]))
      · exact absurd hph (hp1 (by simp [r1]))
  | false =>
    show locked_inv b a1 a2 (locked_step s false)
    unfold locked_step locked_txn
    simp only [Bool.false_eq_true, if_false]
    cases hph : s.t2.phase with
    | succ n => exact ⟨hc1, hc2, hp1, hp2, hcases⟩
    | zero =>
      rcases hcases with ⟨r1, r2, hb⟩ | ⟨r1, r2, hb⟩ | ⟨r1, r2, hb⟩ | ⟨r1, r2, hb⟩ | ⟨r1, r2, hb⟩
      · have hno : ¬ (s.bal < s.t2.cost) := by rw [hb, hc2]; exact not_lt.mpr h2
        simp only [hno, if_false]
        refine ⟨hc1, hc2, hp1, ?_, ?_⟩
        · intro _
          show (2 : Nat) ≠ 0
          omega
        · right; right; left
          refine ⟨r1, rfl, ?_⟩
          show s.bal - s.t2.cost = b - a2
          rw [hb, hc2]
      · have hyes : s.bal < s.t2.cost := by rw [hb, hc2]; omega
        simp only [hyes, if_true]
        refine ⟨hc1, hc2, hp1, ?_, ?_⟩
        · intro _
          show (2 : Nat) ≠ 0
          omega
        · right; right; right; left
          exact ⟨r1, rfl, hb⟩
      · exact absurd hph (hp2 (by simp [r2]))
      · exact absurd hph (hp2 (by simp [r2]))
      · exact absurd hph (hp2 (by simp [r2]))

/-- The locked-reservation invariant holds along every schedule. -/
theorem locked_inv_run (b a1 a2 : Int) (h1 : a1 ≤ b) (h2 : a2 ≤ b) (h3 : b < a1 + a2)
    (s : RaceState) (sched : List Bool) (h : locked_inv b a1 a2 s) :
    locked_inv b a1 a2 (locked_run s sched) := by
  induction sched generalizing s with
  | nil => exact h
  | cons w rest ih => exact ih (locked_step s w) (locked_inv_step b a1 a2 h1 h2 h3 s w h)

/-- The product → credits table never maps to a negative amount. -/
theorem get_credits_for_product_nonneg (pid : String) :
    0 ≤ get_credits_for_product pid := by
  unfold get_credits_for_product
  split_ifs <;> norm_num

/-- Creating the user row does not touch the credit rows. -/
theorem rc_get_or_create_user_credits (db : RCDB) (uid : String) :
    (rc_get_or_create_user db uid).credits = db.credits := by
  unfold rc_get_or_create_user
  split <;> rfl

/-- After `rc_get_or_create_credit` the user's credit row exists. -/
theorem rc_get_or_create_credit_isSome (db : RCDB) (uid : String) :
    (findCreditList (rc_get_or_create_credit db uid).credits uid).isSome := by
  unfold rc_get_or_create_credit
  cases h : findCreditList db.credits uid with
  | some c => simp [h]
  | none => simp [findCreditList_append_new db.credits uid h]

/-- `rc_get_or_create_credit` does not change the readable balance. -/
theorem balance_of_rc_get_or_create_credit (db : RCDB) (uid : String) :
    balance_of (rc_get_or_create_credit db uid).credits uid
      = balance_of db.credits uid := by
  unfold rc_get_or_create_credit
  cases h : findCreditList db.credits uid with
  | some c => rfl
  | none =>
    unfold balance_of
    rw [findCreditList_append_new db.credits uid h, h]

/-- `handle_initial_purchase` adds exactly the product's credits to the
purchasing user. -/
theorem balance_of_handle_initial_purchase (uid pid : String) (db : RCDB) :
    balance_of (handle_initial_purchase uid pid db).credits uid
      = balance_of db.credits uid + get_credits_for_product pid := by
  unfold handle_initial_purchase
  have hu : (rc_get_or_create_user db uid).credits = db.credits :=
    rc_get_or_create_user_credits db uid
  by_cases h : 0 < get_credits_for_product pid
  · simp only [h, if_true]
    rw [balance_of_updateCreditList _ _ _ (rc_get_or_create_credit_isSome _ _),
        balance_of_rc_get_or_create_credit]
    unfold balance_of findCreditList
    rw [hu]
  · simp only [h, if_false]
    have h0 : get_credits_for_product pid = 0 :=
      le_antisymm (not_lt.mp h) (get_credits_for_product_nonneg pid)
    rw [h0, add_zero, balance_of_rc_get_or_create_credit]
    unfold balance_of findCreditList
    rw [hu]

/-- `handle_non_renewing_purchase` adds exactly the product's credits to the
purchasing user. -/
theorem balance_of_handle_non_renewing_purchase (uid pid : String) (db : RCDB) :
    balance_of (handle_non_renewing_purchase uid pid db).credits uid
      = balance_of db.credits uid + get_credits_for_product pid := by
  unfold handle_non_renewing_purchase
  have hu : (rc_get_or_create_user db uid).credits = db.credits :=
    rc_get_or_create_user_credits db uid
  by_cases h : 0 < get_credits_for_product pid
  · simp only [h, if_true]
    rw [balance_of_updateCreditList _ _ _ (rc_get_or_create_credit_isSome _ _),
        balance_of_rc_get_or_create_credit]
    unfold balance_of findCreditList
    rw [hu]
  · simp only [h, if_false]
    have h0 : get_credits_for_product pid = 0 :=
      le_antisymm (not_lt.mp h) (get_credits_for_product_nonneg pid)
    rw [h0, add_zero, balance_of_rc_get_or_create_credit]
    unfold balance_of findCreditList
    rw [hu]

/-- `handle_renewal` adds exactly the product's credits when the user row
exists. -/
theorem balance_of_handle_renewal (uid pid : String) (db : RCDB)
    (hm : db.users.contains uid = true) :
    balance_of (handle_renewal uid pid db).credits uid
      = balance_of db.credits uid + get_credits_for_product pid := by
  unfold handle_renewal
  simp only [hm, Bool.not_true, Bool.false_eq_true, if_false]
  by_cases h : 0 < get_credits_for_product pid
  · simp only [h, if_true]
    rw [balance_of_updateCreditList _ _ _ (rc_get_or_create_credit_isSome _ _),
        balance_of_rc_get_or_create_credit]
  · simp only [h, if_false]
    have h0 : get_credits_for_product pid = 0 :=
      le_antisymm (not_lt.mp h) (get_credits_for_product_nonneg pid)
    rw [h0, add_zero, balance_of_rc_get_or_create_credit]

/-- `handle_renewal` never changes the set of known users. -/
theorem handle_renewal_users (uid pid : String) (db : RCDB) :
    (handle_renewal uid pid db).users = db.users := by
  unfold handle_renewal rc_get_or_create_credit
  split
  · rfl
  · split <;> dsimp only <;> split <;> rfl

/-! ## Claim theorems -/

/-- C10: for every authenticated user with no credit row, GET /credits
returns balance 0 and performs no write — the handler leaves the database
exactly as it found it and neither creates a credit row nor modifies any
state. -/
theorem c10_get_credits_read_only (db : DB) (uid : String) :
    (get_credits db uid).2 = db ∧
    (db.findCredit uid = none → (get_credits db uid).1 = 0) := by
  refine ⟨rfl, fun h => ?_⟩
  simp [get_credits, h]

/-- Witness for C10 at the empty database. -/
theorem c10_get_credits_read_only_witness :
    (get_credits ⟨[], [], [], [], []⟩ "u").2 = (⟨[], [], [], [], []⟩ : DB) ∧
    (get_credits ⟨[], [], [], [], []⟩ "u").1 = 0 :=
  ⟨(c10_get_credits_read_only ⟨[], [], [], [], []⟩ "u").1,
   (c10_get_credits_read_only ⟨[], [], [], [], []⟩ "u").2 rfl⟩

/-- C8 (counterexample): the claim says EVERY read of an asset, job, or
shoot through the API surface — including output retrieval — filters by the
calling user's id.  `get_job` does, but `serve_output` (GET
/outputs/filename) resolves the job by id alone, with no authentication
dependency at all: alice's output is served although a cross-user `get_job`
correctly reports not found. -/
theorem c8_cross_user_output_served :
    get_job c8_db0 "J9" "bob" = GetJobResp.notFound ∧
    serve_output c8_db0 "J9" = ServeOutputResp.ok "alice/S9/A9/outputs/J9.jpg" := by
  decide

/-- C8 (amended): reads of jobs through `get_job` are scoped to the calling
user and a cross-user request is rejected as not found; output retrieval
through `serve_output`, however, performs no ownership filtering — it looks
the job up by id alone and serves the stored output to any caller. -/
theorem c8_ownership_scoping (db : DB) (jid uid : String) :
    (db.jobs.find? (fun j => j.id == jid && j.user_id == uid) = none →
       get_job db jid uid = GetJobResp.notFound) ∧
    (∀ j : Job, db.jobs.find? (fun j => j.id == jid && j.user_id == uid) = some j →
       get_job db jid uid = GetJobResp.ok j) ∧
    (∀ (j : Job) (p : String), db.jobs.find? (fun j => j.id == jid) = some j →
       j.output_path = some p → serve_output db jid = ServeOutputResp.ok p) := by
  refine ⟨fun h => ?_, fun j h => ?_, fun j p h hp => ?_⟩
  · unfold get_job
    rw [h]
  · unfold get_job
    rw [h]
  · simp [serve_output, h, hp]

/-- Witness for C8 at the concrete one-job database. -/
theorem c8_ownership_scoping_witness :
    get_job c8_db0 "J9" "carol" = GetJobResp.notFound ∧
    serve_output c8_db0 "J9" = ServeOutputResp.ok "alice/S9/A9/outputs/J9.jpg" :=
  ⟨(c8_ownership_scoping c8_db0 "J9" "carol").1 rfl,
   (c8_ownership_scoping c8_db0 "J9" "alice").2.2 _ _ rfl rfl⟩

/-- C6: the claim says a confirm-upload whose object the store reports
absent creates no asset row and fails with a precondition error.  In the
code both confirm endpoints run the existence check inside a
`try/except Exception` that catches the `HTTPException(400)` raised for the
absent object: the mobile variant logs a warning and FALLS THROUGH, creating
the asset row and returning success, while the desktop variant re-raises it
as a 500.  Evaluating both endpoints with the store reporting the object
absent exhibits the divergence. -/
theorem c6_confirm_absent_creates_asset :
    (mobile_confirm_upload true false c6_req "U6" c6_db0).1 = MobileConfirmResp.ok "A6" ∧
    (mobile_confirm_upload true false c6_req "U6" c6_db0).2.assets.length = 1 ∧
    (confirm_upload true false c6_req "U6" c6_db0).1
      = ConfirmResp.verifyFailed "Failed to verify upload" ∧
    (confirm_upload true false c6_req "U6" c6_db0).2.assets = [] := by
  decide

/-- C1: the claim says that after the worker finalizes a job as failed and
refunds its credits (recording the refund marker on the failed event), a
subsequent POST /jobs/id/refund is rejected with "already refunded" and
leaves the balance unchanged.  Evaluating the code at that scenario shows
the opposite: the worker records the refund only as a "credits_refunded"
DETAILS key of an event of TYPE "failed", `refund_job` looks for an event
of TYPE "credits_refunded", finds none, and refunds a second time — the
endpoint responds with success and the balance rises from 3 to 5. -/
theorem c1_worker_refund_not_idempotent :
    balance_of c1_db1.credits "U2" = 3 ∧
    (c1_db1.events.any (fun e =>
       e.event_type == "failed" && e.details.any (fun kv => kv.1 == "credits_refunded"))) = true ∧
    c1_db1.hasEvent "J2" "credits_refunded" = false ∧
    (refund_job_credits c1_db1 "J2" "U2").1 = RefundResp.ok 2 5 ∧
    balance_of (refund_job_credits c1_db1 "J2" "U2").2.credits "U2" = 5 := by
  decide

/-- C3 (counterexample): the claim says any tier outside the set of free and
premium is rejected as invalid_argument without mutating state.  The code
never validates the tier: the unknown tier "mega" is priced as premium, the
reservation is taken (balance 5 falls to 3) and the job row is created. -/
theorem c3_unknown_tier_accepted :
    (create_job c3_db0 "U1" "A1" "p" "mega" "J1").1 = CreateJobResp.ok "J1" "queued" 2 ∧
    balance_of (create_job c3_db0 "U1" "A1" "p" "mega" "J1").2.credits "U1" = 3 ∧
    (create_job c3_db0 "U1" "A1" "p" "mega" "J1").2.jobs.length = 1 := by
  decide

/-- C3 (amended): create_job validates only asset ownership and the balance;
the tier string is priced by `1 if tier == "free" else 2` with no
membership check, so tier free reserves 1 credit and EVERY other tier value
(premium or not) reserves 2.  Given an owned asset and sufficient balance,
the request succeeds, deducts exactly that cost, and appends the queued job
row with `credits_used` equal to the cost. -/
theorem c3_tier_pricing (db : DB) (uid aid prompt tier njid : String) (a : Asset) (c : Credit)
    (ha : db.assets.find? (fun x => x.id == aid && x.user_id == uid) = some a)
    (hc : findCreditList db.credits uid = some c)
    (hb : (if tier == "free" then (1 : Int) else 2) ≤ c.balance) :
    (create_job db uid aid prompt tier njid).1
      = CreateJobResp.ok njid "queued" (if tier == "free" then 1 else 2) ∧
    balance_of (create_job db uid aid prompt tier njid).2.credits uid
      = c.balance - (if tier == "free" then 1 else 2) ∧
    (create_job db uid aid prompt tier njid).2.jobs
      = db.jobs ++ [{ id := njid, asset_id := aid, user_id := uid, prompt := prompt,
                      status := JobStatus.queued, output_path := none, error_message := none,
                      credits_used := (if tier == "free" then 1 else 2), started_at := none,
                      completed_at := none, lease_expires_at := none,
                      retry_count := 0, max_retries := 3 }] := by
  have hbal : balance_of db.credits uid = c.balance := by
    unfold balance_of
    rw [hc]
  have hsome : (findCreditList db.credits uid).isSome := by
    rw [hc]
    rfl
  by_cases ht : tier == "free"
  · simp only [ht, if_true] at hb ⊢
    have h1 : ¬ (c.balance < 1) := not_lt.mpr hb
    refine ⟨?_, ?_, ?_⟩
    · simp only [create_job, DB.findCredit, ha, hc, ht, h1, if_true, if_false]
    · simp only [create_job, DB.findCredit, ha, hc, ht, h1, if_true, if_false, DB.addEvent]
      rw [balance_of_updateCreditList _ _ _ hsome, hbal]
      omega
    · simp only [create_job, DB.findCredit, ha, hc, ht, h1, if_true, if_false, DB.addEvent]
  · simp only [ht, Bool.false_eq_true, if_false] at hb ⊢
    have h1 : ¬ (c.balance < 1) := by omega
    have h2 : ¬ (c.balance < 2) := not_lt.mpr hb
    refine ⟨?_, ?_, ?_⟩
    · simp only [create_job, DB.findCredit, ha, hc, ht, h1, h2, Bool.false_eq_true,
        if_true, if_false]
    · simp only [create_job, DB.findCredit, ha, hc, ht, h1, h2, Bool.false_eq_true,
        if_true, if_false, DB.addEvent]
      rw [balance_of_updateCreditList _ _ _ hsome, hbal]
      omega
    · simp only [create_job, DB.findCredit, ha, hc, ht, h1, h2, Bool.false_eq_true,
        if_true, if_false, DB.addEvent]

/-- Witness for C3 at a concrete owned asset, tier "mega", balance 5. -/
theorem c3_tier_pricing_witness :
    (create_job c3_db0 "U1" "A1" "p" "mega" "J1").1 = CreateJobResp.ok "J1" "queued" 2 ∧
    balance_of (create_job c3_db0 "U1" "A1" "p" "mega" "J1").2.credits "U1" = 5 - 2 ∧
    (create_job c3_db0 "U1" "A1" "p" "mega" "J1").2.jobs
      = c3_db0.jobs ++ [{ id := "J1", asset_id := "A1", user_id := "U1", prompt := "p",
                          status := JobStatus.queued, output_path := none, error_message := none,
                          credits_used := 2, started_at := none, completed_at := none,
                          lease_expires_at := none, retry_count := 0, max_retries := 3 }] :=
  c3_tier_pricing c3_db0 "U1" "A1" "p" "mega" "J1"
    ⟨"A1", "S1", "U1", "f.jpg", "U1/S1/A1/original", 100, "image/jpeg"⟩
    ⟨"U1", 5⟩ rfl rfl (by decide)

/-- C2 (counterexample): the claim says delivering the same signed
credit-granting webhook event twice yields the same final balance as one
delivery.  Replaying the NON_RENEWING_PURCHASE for the 5-credit bundle
doubles the grant: the balance is 10 after two deliveries and 5 after
one. -/
theorem c2_webhook_replay_double_credits :
    balance_of (revenuecat_webhook_event "NON_RENEWING_PURCHASE" "u1"
        "com.lusterai.credits.small"
        (revenuecat_webhook_event "NON_RENEWING_PURCHASE" "u1"
          "com.lusterai.credits.small" ⟨[], []⟩)).credits "u1" = 10 ∧
    balance_of (revenuecat_webhook_event "NON_RENEWING_PURCHASE" "u1"
        "com.lusterai.credits.small" ⟨[], []⟩).credits "u1" = 5 ∧
    balance_of (revenuecat_webhook_event "NON_RENEWING_PURCHASE" "u1"
        "com.lusterai.credits.small"
        (revenuecat_webhook_event "NON_RENEWING_PURCHASE" "u1"
          "com.lusterai.credits.small" ⟨[], []⟩)).credits "u1"
      ≠ balance_of (revenuecat_webhook_event "NON_RENEWING_PURCHASE" "u1"
          "com.lusterai.credits.small" ⟨[], []⟩).credits "u1" := by
  decide

/-- C2 (amended): the webhook handlers consult no idempotency key — neither
event id nor any dedup table appears in the code — so a verbatim replay of a
credit-granting event applies the product's delta again: after two
deliveries the balance is the initial balance plus twice the product's
credits (for RENEWAL, provided the user row exists). -/
theorem c2_webhook_no_idempotency_key (db : RCDB) (uid pid : String) :
    (∀ ty : String, ty = "INITIAL_PURCHASE" ∨ ty = "NON_RENEWING_PURCHASE" →
       balance_of (revenuecat_webhook_event ty uid pid
           (revenuecat_webhook_event ty uid pid db)).credits uid
         = balance_of db.credits uid + 2 * get_credits_for_product pid) ∧
    (db.users.contains uid = true →
       balance_of (revenuecat_webhook_event "RENEWAL" uid pid
           (revenuecat_webhook_event "RENEWAL" uid pid db)).credits uid
         = balance_of db.credits uid + 2 * get_credits_for_product pid) := by
  have hdi : ∀ d : RCDB, revenuecat_webhook_event "INITIAL_PURCHASE" uid pid d
      = handle_initial_purchase uid pid d := fun d => rfl
  have hdn : ∀ d : RCDB, revenuecat_webhook_event "NON_RENEWING_PURCHASE" uid pid d
      = handle_non_renewing_purchase uid pid d := fun d => rfl
  have hdr : ∀ d : RCDB, revenuecat_webhook_event "RENEWAL" uid pid d
      = handle_renewal uid pid d := fun d => rfl
  constructor
  · rintro ty (rfl | rfl)
    · rw [hdi, hdi, balance_of_handle_initial_purchase,
          balance_of_handle_initial_purchase]
      ring
    · rw [hdn, hdn, balance_of_handle_non_renewing_purchase,
          balance_of_handle_non_renewing_purchase]
      ring
  · intro hm
    rw [hdr, hdr,
        balance_of_handle_renewal _ _ _ (by rw [handle_renewal_users]; exact hm),
        balance_of_handle_renewal _ _ _ hm]
    ring

/-- Witness for C2 at the 5-credit bundle on an empty state. -/
theorem c2_webhook_no_idempotency_key_witness :
    balance_of (revenuecat_webhook_event "NON_RENEWING_PURCHASE" "w"
        "com.lusterai.credits.small"
        (revenuecat_webhook_event "NON_RENEWING_PURCHASE" "w"
          "com.lusterai.credits.small" ⟨[], []⟩)).credits "w"
      = balance_of (⟨[], []⟩ : RCDB).credits "w"
        + 2 * get_credits_for_product "com.lusterai.credits.small" :=
  (c2_webhook_no_idempotency_key ⟨[], []⟩ "w" "com.lusterai.credits.small").1
    "NON_RENEWING_PURCHASE" (Or.inr rfl)

/-- C5 (counterexample): the claim says a reclaim of an expired lease leaves
the job's existing started_at unchanged.  Running the worker on a queued job
claimed at time 0 (crash) and reclaimed at time 100 shows `process_job`
executes `job.started_at = now` unconditionally: started_at moves from 0 to
100 on the reclaim while retry_count increments to 1. -/
theorem c5_reclaim_overwrites_started_at :
    (wrun c5_s0 [WOp.claim 0 Outcome.crash]).job.started_at = some 0 ∧
    (wrun c5_s0 [WOp.claim 0 Outcome.crash, WOp.claim 100 Outcome.crash]).job.started_at
      = some 100 ∧
    (wrun c5_s0 [WOp.claim 0 Outcome.crash, WOp.claim 100 Outcome.crash]).job.retry_count = 1 ∧
    (wrun c5_s0 [WOp.claim 0 Outcome.crash, WOp.claim 100 Outcome.crash]).job.started_at
      ≠ (wrun c5_s0 [WOp.claim 0 Outcome.crash]).job.started_at := by
  decide

/-- C5 (amended): every successful claim writes `status = processing`,
`lease_expires_at = now + lease_duration` and `started_at = now` — on the
FIRST claim and on every reclaim alike, so a reclaim overwrites the
existing started_at rather than preserving it — and `retry_count` is
incremented exactly on reclaims.  (The status and lease conclusions are
observed at the crash outcome, which exposes the row precisely as the claim
wrote it.) -/
theorem c5_claim_writes_started_at (s : WState) (now : Nat) (o : Outcome) :
    (s.job.status = JobStatus.queued →
       (wstep s (WOp.claim now o)).job.started_at = some now ∧
       (wstep s (WOp.claim now o)).job.retry_count = s.job.retry_count ∧
       (o = Outcome.crash →
          (wstep s (WOp.claim now o)).job.status = JobStatus.processing ∧
          (wstep s (WOp.claim now o)).job.lease_expires_at
            = some (now + lease_duration_minutes))) ∧
    (s.job.status = JobStatus.processing → lease_expired s.job now = true →
       s.job.retry_count + 1 < s.job.max_retries →
       (wstep s (WOp.claim now o)).job.started_at = some now ∧
       (wstep s (WOp.claim now o)).job.retry_count = s.job.retry_count + 1 ∧
       (o = Outcome.crash →
          (wstep s (WOp.claim now o)).job.status = JobStatus.processing ∧
          (wstep s (WOp.claim now o)).job.lease_expires_at
            = some (now + lease_duration_minutes))) := by
  constructor
  · intro hq
    have he : claim_eligible s.job now = true := by
      simp [claim_eligible, hq]
    have hp : ¬ (s.job.status = JobStatus.processing) := by
      rw [hq]
      decide
    simp only [wstep]
    rw [if_pos he]
    unfold process_job
    rw [if_neg hp]
    have hf := run_attempt_fields s now o false
    refine ⟨hf.2.2.2.1, hf.1, fun ho => ?_⟩
    subst ho
    exact run_attempt_crash s now false
  · intro hp hl hrc
    have he : claim_eligible s.job now = true := by
      simp [claim_eligible, hp, hl]
      omega
    simp only [wstep]
    rw [if_pos he]
    unfold process_job
    rw [if_pos hp]
    have hx : ¬ (s.job.max_retries ≤ s.job.retry_count + 1) := by omega
    rw [if_neg hx]
    have hf := run_attempt_fields
      { s with job := { s.job with retry_count := s.job.retry_count + 1 } } now o true
    refine ⟨hf.2.2.2.1, ?_, fun ho => ?_⟩
    · rw [hf.1]
    · subst ho
      exact run_attempt_crash _ now true

/-- Witness for C5 at the concrete queued job, claimed at time 7. -/
theorem c5_claim_writes_started_at_witness :
    (wstep c5_s0 (WOp.claim 7 Outcome.crash)).job.started_at = some 7 ∧
    (wstep c5_s0 (WOp.claim 7 Outcome.crash)).job.retry_count = c5_s0.job.retry_count ∧
    (Outcome.crash = Outcome.crash →
       (wstep c5_s0 (WOp.claim 7 Outcome.crash)).job.status = JobStatus.processing ∧
       (wstep c5_s0 (WOp.claim 7 Outcome.crash)).job.lease_expires_at
         = some (7 + lease_duration_minutes)) :=
  (c5_claim_writes_started_at c5_s0 7 Outcome.crash).1 rfl

/-- C4: along every worker history of claims, reclaims and sweeps starting
from a freshly created queued job, `retry_count ≤ max_retries` holds in
every reachable state and the number of processing attempts never exceeds
`max_retries` (so with max_retries = 3 a fourth processing attempt never
occurs); and a reclaim whose incremented retry_count reaches the budget is
finalized as failed with its reserved credits refunded to the user's credit
row, without entering the processing path. -/
theorem c4_retry_budget (mr : Nat) (hmr : 1 ≤ mr) (s0 : WState)
    (hq : s0.job.status = JobStatus.queued) (hrc : s0.job.retry_count = 0)
    (hmr0 : s0.job.max_retries = mr) (ha : s0.attempts = 0) :
    (∀ ops : List WOp,
       (wrun s0 ops).job.retry_count ≤ (wrun s0 ops).job.max_retries ∧
       (wrun s0 ops).job.max_retries = mr ∧
       (wrun s0 ops).attempts ≤ mr) ∧
    (∀ (s : WState) (now : Nat) (o : Outcome) (c : Credit),
       s.job.status = JobStatus.processing → lease_expired s.job now = true →
       s.job.retry_count < s.job.max_retries →
       s.job.max_retries ≤ s.job.retry_count + 1 →
       s.credit = some c →
       (wstep s (WOp.claim now o)).job.status = JobStatus.failed ∧
       (wstep s (WOp.claim now o)).credit
         = some { c with balance := c.balance + s.job.credits_used } ∧
       (wstep s (WOp.claim now o)).attempts = s.attempts) := by
  constructor
  · intro ops
    have hinv := winv_wrun mr hmr s0 ops
      ⟨hmr0, by omega, by omega, by omega, fun _ => ⟨ha, hrc⟩⟩
    obtain ⟨i1, i2, i3, i4, i5⟩ := hinv
    exact ⟨by omega, i1, i4⟩
  · intro s now o c hp hl hrc hx hc
    have he : claim_eligible s.job now = true := by
      simp [claim_eligible, hp, hl, hrc]
    simp only [wstep]
    rw [if_pos he]
    unfold process_job
    rw [if_pos hp]
    rw [if_pos (show s.job.max_retries ≤ s.job.retry_count + 1 from hx)]
    refine ⟨rfl, ?_, rfl⟩
    rw [hc]
    rfl

/-- Witness for C4: a concrete exhausting history of four claims and a
sweep with budget 3, plus the exhaustion boundary state. -/
theorem c4_retry_budget_witness :
    ((wrun c4w_s0 c4w_ops).job.retry_count ≤ (wrun c4w_s0 c4w_ops).job.max_retries ∧
     (wrun c4w_s0 c4w_ops).job.max_retries = 3 ∧
     (wrun c4w_s0 c4w_ops).attempts ≤ 3) ∧
    ((wstep c4w_s1 (WOp.claim 50 Outcome.crash)).job.status = JobStatus.failed ∧
     (wstep c4w_s1 (WOp.claim 50 Outcome.crash)).credit = some ⟨"U4", 5 + 2⟩ ∧
     (wstep c4w_s1 (WOp.claim 50 Outcome.crash)).attempts = c4w_s1.attempts) :=
  ⟨(c4_retry_budget 3 (by decide) c4w_s0 rfl rfl rfl rfl).1 c4w_ops,
   (c4_retry_budget 3 (by decide) c4w_s0 rfl rfl rfl rfl).2 c4w_s1 50 Outcome.crash
     ⟨"U4", 5⟩ rfl (by decide) (by decide) (by decide) rfl⟩

/-- C9 (counterexample): the claim says that for balance B and two
concurrent reserves a, b with a + b > B, EVERY interleaving lets exactly one
succeed.  The POST /jobs reservation takes no row lock: with balance 2 and
two premium requests (cost 2 each), the schedule read-read-write-write lets
BOTH succeed. -/
theorem c9_unlocked_reserve_race :
    (unlocked_run (race_init 2 2 2) [true, false, true, false]).t1.result = some true ∧
    (unlocked_run (race_init 2 2 2) [true, false, true, false]).t2.result = some true := by
  decide

/-- C9 (amended): the reservation in mobile_enhance locks the credit row
(SELECT FOR UPDATE), and under that model every interleaving of two
reserves with a1 ≤ B, a2 ≤ B, a1 + a2 > B gives a non-negative balance,
never two successes, and — once both requests have finished — exactly one
success and one "insufficient".  The reservation in create_job (POST /jobs)
is an unlocked read-check-write, and there an interleaving exists in which
both requests succeed. -/
theorem c9_reserve_serialization (b a1 a2 : Int)
    (h01 : 0 < a1) (h02 : 0 < a2)
    (h1 : a1 ≤ b) (h2 : a2 ≤ b) (h3 : b < a1 + a2) :
    (∀ sched : List Bool,
       ¬((locked_run (race_init b a1 a2) sched).t1.result = some true ∧
         (locked_run (race_init b a1 a2) sched).t2.result = some true) ∧
       0 ≤ (locked_run (race_init b a1 a2) sched).bal ∧
       ((locked_run (race_init b a1 a2) sched).t1.result.isSome = true →
        (locked_run (race_init b a1 a2) sched).t2.result.isSome = true →
          ((locked_run (race_init b a1 a2) sched).t1.result = some true ∧
           (locked_run (race_init b a1 a2) sched).t2.result = some false) ∨
          ((locked_run (race_init b a1 a2) sched).t1.result = some false ∧
           (locked_run (race_init b a1 a2) sched).t2.result = some true))) ∧
    ((unlocked_run (race_init b a1 a2) [true, false, true, false]).t1.result = some true ∧
     (unlocked_run (race_init b a1 a2) [true, false, true, false]).t2.result = some true) := by
  constructor
  · intro sched
    have hinv := locked_inv_run b a1 a2 h1 h2 h3 (race_init b a1 a2) sched
      ⟨rfl, rfl, by simp [race_init], by simp [race_init], Or.inl ⟨rfl, rfl, rfl⟩⟩
    obtain ⟨hc1, hc2, hp1, hp2, hcases⟩ := hinv
    rcases hcases with ⟨r1, r2, hb⟩ | ⟨r1, r2, hb⟩ | ⟨r1, r2, hb⟩ | ⟨r1, r2, hb⟩ | ⟨r1, r2, hb⟩
    · refine ⟨fun hx => ?_, by omega, fun hs1 hs2 => ?_⟩
      · rw [r1] at hx
        exact Option.noConfusion hx.1
      · rw [r1] at hs1
        exact Bool.noConfusion hs1
    · refine ⟨fun hx => ?_, by omega, fun hs1 hs2 => ?_⟩
      · rw [r2] at hx
        exact Option.noConfusion hx.2
      · rw [r2] at hs2
        exact Bool.noConfusion hs2
    · refine ⟨fun hx => ?_, by omega, fun hs1 hs2 => ?_⟩
      · rw [r1] at hx
        exact Option.noConfusion hx.1
      · rw [r1] at hs1
        exact Bool.noConfusion hs1
    · refine ⟨fun hx => ?_, by omega, fun _ _ => Or.inl ⟨r1, r2⟩⟩
      rw [r2] at hx
      exact Bool.noConfusion (Option.some.inj hx.2)
    · refine ⟨fun hx => ?_, by omega, fun _ _ => Or.inr ⟨r1, r2⟩⟩
      rw [r1] at hx
      exact Bool.noConfusion (Option.some.inj hx.1)
  · have hn1 : ¬ (b < a1) := not_lt.mpr h1
    have hn2 : ¬ (b < a2) := not_lt.mpr h2
    constructor <;>
      simp [unlocked_run, unlocked_step, unlocked_micro, race_init, hn1, hn2]

/-- Witness for C9 at balance 2 with two premium (cost 2) reserves. -/
theorem c9_reserve_serialization_witness :
    (¬((locked_run (race_init 2 2 2) [true, false]).t1.result = some true ∧
       (locked_run (race_init 2 2 2) [true, false]).t2.result = some true) ∧
     0 ≤ (locked_run (race_init 2 2 2) [true, false]).bal ∧
     ((locked_run (race_init 2 2 2) [true, false]).t1.result.isSome = true →
      (locked_run (race_init 2 2 2) [true, false]).t2.result.isSome = true →
        ((locked_run (race_init 2 2 2) [true, false]).t1.result = some true ∧
         (locked_run (race_init 2 2 2) [true, false]).t2.result = some false) ∨
        ((locked_run (race_init 2 2 2) [true, false]).t1.result = some false ∧
         (locked_run (race_init 2 2 2) [true, false]).t2.result = some true))) ∧
    ((unlocked_run (race_init 2 2 2) [true, false, true, false]).t1.result = some true ∧
     (unlocked_run (race_init 2 2 2) [true, false, true, false]).t2.result = some true) :=
  ⟨(c9_reserve_serialization 2 2 2 (by decide) (by decide) (by decide) (by decide)
      (by decide)).1 [true, false],
   (c9_reserve_serialization 2 2 2 (by decide) (by decide) (by decide) (by decide)
      (by decide)).2⟩

/-- C7: for a failed job with positive reserved credits and no refund marker
yet, calling POST /jobs/id/refund k ≥ 1 times yields exactly one success and
k−1 "already refunded" rejections, and the final balance — identical for
every k — is the starting balance plus the reserved credits; a refund on a
non-failed job, or on a failed job with nothing reserved, is rejected with a
400 and leaves the database unchanged. -/
theorem c7_refund_endpoint_idempotent (db : DB) (j : Job) (k : Nat)
    (hjobs : db.jobs = [j]) :
    (j.status = JobStatus.failed → 0 < j.credits_used →
       db.hasEvent j.id "credits_refunded" = false → 1 ≤ k →
       (refund_calls k db j.id j.user_id).1 = 1 ∧
       (refund_calls k db j.id j.user_id).2.1 = k - 1 ∧
       balance_of (refund_calls k db j.id j.user_id).2.2.credits j.user_id
         = balance_of db.credits j.user_id + j.credits_used) ∧
    (j.status ≠ JobStatus.failed →
       (refund_job_credits db j.id j.user_id).1
         = RefundResp.badRequest
             ("Job is not in failed state (current: " ++ j.status.value ++ ")") ∧
       (refund_job_credits db j.id j.user_id).2 = db) ∧
    (j.status = JobStatus.failed → db.hasEvent j.id "credits_refunded" = false →
       j.credits_used ≤ 0 →
       (refund_job_credits db j.id j.user_id).1 = RefundResp.badRequest "No credits to refund" ∧
       (refund_job_credits db j.id j.user_id).2 = db) := by
  refine ⟨?_, ?_, ?_⟩
  · intro hst hcu hev hk
    obtain ⟨k', rfl⟩ : ∃ k', k = k' + 1 := ⟨k - 1, by omega⟩
    have hok := refund_job_success db j hst hev hcu
    have hrjc : refund_job_credits db j.id j.user_id
        = (RefundResp.ok j.credits_used
             (balance_of (refund_credits db j.user_id j.credits_used (some j.id)).credits
               j.user_id),
           refund_credits db j.user_id j.credits_used (some j.id)) := by
      unfold refund_job_credits
      rw [find_job_singleton db j hjobs]
      simp only [hok.1, hok.2, if_true]
    have hjobs1 : (refund_credits db j.user_id j.credits_used (some j.id)).jobs = [j] := by
      rw [refund_credits_jobs]
      exact hjobs
    have hev1 := refund_credits_marks db j.user_id j.credits_used j.id
    have hrest := refund_calls_already k'
      (refund_credits db j.user_id j.credits_used (some j.id)) j hjobs1 hst hev1
    unfold refund_calls
    rw [hrjc]
    simp only [hrest]
    refine ⟨by simp, by simp, ?_⟩
    rw [balance_of_refund_credits]
  · intro hst
    have hr := refund_job_not_failed db j hst
    unfold refund_job_credits
    rw [find_job_singleton db j hjobs]
    simp [hr]
  · intro hst hev hcu
    have hr := refund_job_no_credits db j hst hev hcu
    unfold refund_job_credits
    rw [find_job_singleton db j hjobs]
    simp [hr]

/-- Witness for C7: three refund calls on a concrete failed job with 2
reserved credits and starting balance 1. -/
theorem c7_refund_endpoint_idempotent_witness :
    (refund_calls 3 c7w_db "J7" "U7").1 = 1 ∧
    (refund_calls 3 c7w_db "J7" "U7").2.1 = 3 - 1 ∧
    balance_of (refund_calls 3 c7w_db "J7" "U7").2.2.credits "U7"
      = balance_of c7w_db.credits "U7" + 2 :=
  (c7_refund_endpoint_idempotent c7w_db c7w_job 3 rfl).1 rfl (by decide) rfl (by decide)
